import Mathlib

/-!
Verification of the discovery-synthesis-execution-remediation pipeline:
a shallow embedding, in Lean, of the route extractor, the remediation
analyzer, the security tester, the performance tester, the test-code
acceptance gates and the OpenAPI discovery of this repository, with
theorems settling the spec's claims about them.

Strings are modelled by Lean `String`; JavaScript regular-expression
matching is modelled by explicit character scanning with the same
left-to-right, non-overlapping semantics; asynchronous I/O (file reads,
HTTP responses, the generative backend) is modelled by explicit
environments (`Except`/`Option` values and oracle functions), so every
definition is executable.
-/

/-- `hasSubstr s pat`: JavaScript `s.includes(pat)` — `pat` occurs as a
contiguous substring of `s` (the empty pattern always occurs). -/
def hasSubstrAux (pat : List Char) : List Char → Bool
  | [] => pat.isPrefixOf []
  | c :: cs => pat.isPrefixOf (c :: cs) || hasSubstrAux pat cs

def hasSubstr (s pat : String) : Bool :=
  hasSubstrAux pat.toList s.toList

/-- `s.toUpperCase()` / `s.toLowerCase()` on the ASCII range, written over
the character list so that they reduce definitionally. -/
def toUpperStr (s : String) : String := String.mk (s.data.map Char.toUpper)

def toLowerStr (s : String) : String := String.mk (s.data.map Char.toLower)

/-- `content.split('\n')`: every separator splits, empty pieces kept. -/
def splitNlAux : List Char → List (List Char)
  | [] => [[]]
  | c :: cs =>
    match splitNlAux cs with
    | [] => [[]]
    | l :: ls => if c = '\n' then [] :: l :: ls else (c :: l) :: ls

def splitLines (content : String) : List String := (splitNlAux content.data).map String.mk

/-- `s.startsWith(pre)`. -/
def strStartsWith (s pre : String) : Bool := pre.data.isPrefixOf s.data

/-! ## EndpointExtractor (src/unnamed/part_004, `extractFromFile`)

The extractor scans each line of a source file for the two route-call
shapes `router.<verb>(<quote><path><quote>` and `app.<verb>(<quote><path><quote>`,
matched by the regexes
`/router\.(get|post|put|delete|patch|all)\s*\(\s*['"\x60]([^'"\x60]+)['"\x60]/g`
and the same with `app`. Matching is modelled faithfully: at each
character position the literal callee prefix, one verb alternative
(the alternatives are prefix-free, so no backtracking arises), greedy
`\s*`, `(`, greedy `\s*`, one opening quote, a maximal nonempty run of
non-quote characters and one closing quote (any of the three quote
kinds); successive matches are non-overlapping and scanning resumes
after the closing quote, exactly as a JavaScript global regex does. -/

/-- The verb alternatives of both route regexes, in the source's order. -/
def routeVerbs : List String := ["get", "post", "put", "delete", "patch", "all"]

/-- JavaScript regex `\s`: ASCII whitespace and the Unicode space
characters. -/
def isSpaceJS (c : Char) : Bool :=
  c = ' ' || c = '\t' || c = '\n' || c = '\r' || c = '\x0b' || c = '\x0c'
    || c = '\u00A0' || c = '\u1680' || ('\u2000' ≤ c && c ≤ '\u200A')
    || c = '\u2028' || c = '\u2029' || c = '\u202F' || c = '\u205F'
    || c = '\u3000' || c = '\uFEFF'

/-- A member of the character class containing the single quote, the double
quote and the backtick. -/
def isQuoteJS (c : Char) : Bool :=
  c = '\'' || c = '"' || c = Char.ofNat 96

/-- Match one verb alternative as a prefix; the verbs are prefix-free, so at
most one alternative applies. -/
def matchVerbAt (cs : List Char) : Option (String × List Char) :=
  routeVerbs.findSome? fun v =>
    if v.toList.isPrefixOf cs then some (v, cs.drop v.length) else none

/-- Match the whole route-call shape at the head of `cs` for the given
callee prefix (`router.` or `app.`); returns the verb, the captured path
and the remainder after the closing quote. -/
def matchRouteCallAt (callee : List Char) (cs : List Char) :
    Option (String × String × List Char) :=
  if callee.isPrefixOf cs then
    match matchVerbAt (cs.drop callee.length) with
    | none => none
    | some (v, s2) =>
      match s2.dropWhile isSpaceJS with
      | '(' :: s4 =>
        match s4.dropWhile isSpaceJS with
        | q1 :: s6 =>
          if isQuoteJS q1 then
            let p := s6.takeWhile (fun c => !(isQuoteJS c))
            let s7 := s6.dropWhile (fun c => !(isQuoteJS c))
            if p.isEmpty then none
            else
              match s7 with
              | q2 :: s8 => if isQuoteJS q2 then some (v, String.mk p, s8) else none
              | [] => none
          else none
        | [] => none
      | _ => none
  else none

/-- Left-to-right, non-overlapping scan of one line for route calls of one
callee; `fuel` bounds the recursion (each step consumes at least one
character, so `fuel = length` is enough). -/
def scanRouteCalls (callee : List Char) : Nat → List Char → List (String × String)
  | 0, _ => []
  | _ + 1, [] => []
  | fuel + 1, c :: cs =>
    match matchRouteCallAt callee (c :: cs) with
    | some (v, p, rest) => (v, p) :: scanRouteCalls callee fuel rest
    | none => scanRouteCalls callee fuel cs

/-- All route-call matches on one line: first the `router.` matches, then the
`app.` matches, in the order the extractor pushes them. -/
def routeCallsOfLine (line : String) : List (String × String) :=
  scanRouteCalls "router.".toList line.length line.toList
    ++ scanRouteCalls "app.".toList line.length line.toList

/-- The `Endpoint` interface of the extractor. -/
structure Endpoint where
  method : String
  path : String
  file : String
  line : Option Nat
  authRequired : Option Bool
  middleware : Option (List String)
deriving DecidableEq, Repr

/-- One endpoint record as pushed inside the per-line match loops. -/
def mkExtractedEndpoint (fp : String) (lineNum : Nat) (vp : String × String) : Endpoint :=
  ⟨toUpperStr vp.1, vp.2, fp, some lineNum, none, none⟩

/-- The per-line extraction loop (`for i` over `content.split('\n')` with
1-based line numbers). -/
def extractLines (fp : String) : Nat → List String → List Endpoint
  | _, [] => []
  | n, l :: ls =>
    ((routeCallsOfLine l).map (mkExtractedEndpoint fp n)) ++ extractLines fp (n + 1) ls

/-- `detectAuthMiddleware`'s per-line test: one of the fixed auth substrings
occurs on the line (the patterns carry no flags, so matching is
case-sensitive substring search). -/
def jsAuthLineTest (line : String) : Bool :=
  hasSubstr line "authenticate" || hasSubstr line "auth" || hasSubstr line "jwt"
    || hasSubstr line "verifyToken" || hasSubstr line "requireAuth"
    || hasSubstr line "isAuthenticated" || hasSubstr line "passport.authenticate"

/-- JavaScript regex `\w`. -/
def isWordCharJS (c : Char) : Bool := c.isAlphanum || c = '_'

/-- Does `/(\w+)\s*\(/` match at the head of `cs`?  A maximal word run, then
maximal spaces, then `(` (shorter word runs or fewer spaces cannot help,
since the following character would be a word or space character, never
`(`). Returns the captured word. -/
def wordParenHere (cs : List Char) : Option (List Char) :=
  let w := cs.takeWhile isWordCharJS
  if w.isEmpty then none
  else
    match (cs.dropWhile isWordCharJS).dropWhile isSpaceJS with
    | '(' :: _ => some w
    | _ => none

/-- Leftmost match of `/(\w+)\s*\(/` on a line (`line.match(...)`, group 1). -/
def firstWordParenAux : List Char → Option (List Char)
  | [] => none
  | c :: cs =>
    match wordParenHere (c :: cs) with
    | some w => some w
    | none => firstWordParenAux cs

def firstWordParen (line : String) : Option String :=
  (firstWordParenAux line.toList).map String.mk

/-- `detectAuthMiddleware` on one endpoint: scan the window of lines
`[max 0 (line-5), min lines.length (line+5))` (0-based indices, the
endpoint's `line` is 1-based) for the first line passing the auth test;
if found, set `authRequired := true` and push the first `(\w+)\s*\(`
capture of that line onto `middleware`. -/
def annotateEndpoint (lines : List String) (e : Endpoint) : Endpoint :=
  match e.line with
  | none => e
  | some ln =>
    if ln = 0 then e  -- `if (!endpoint.line) return` also skips a zero line
    else
      let start := ln - 5
      let stop := min lines.length (ln + 5)
      match (List.range' start (stop - start)).find?
          (fun i => jsAuthLineTest (lines.getD i "")) with
      | none => e
      | some i =>
        { e with
          authRequired := some true
          middleware :=
            match firstWordParen (lines.getD i "") with
            | some w => some ((e.middleware.getD []) ++ [w])
            | none => e.middleware }

/-- `EndpointExtractor.extractFromFile` on file content that was read
successfully: the per-line match loops, then `detectAuthMiddleware`
(which only rewrites `authRequired`/`middleware` on the collected
records, in place). -/
def extractEndpoints (fp content : String) : List Endpoint :=
  let lines := splitLines content
  (extractLines fp 1 lines).map (annotateEndpoint lines)

/-- `EndpointExtractor.extractFromFile` including its try/catch: the file
read is modelled by an `Except` argument; a read failure is caught and
re-thrown as `Failed to extract endpoints from <file>: <message>`. -/
def extractFromFile (fp : String) (readResult : Except String String) :
    Except String (List Endpoint) :=
  match readResult with
  | Except.ok content => Except.ok (extractEndpoints fp content)
  | Except.error msg =>
      Except.error ("Failed to extract endpoints from " ++ fp ++ ": " ++ msg)

/-- The per-file extraction loop of `routes.ts` (`for (const file of
routeFiles) { ... await extractor.extractFromFile(file) ... }`): it has no
per-file catch, so the first throw aborts the whole loop. -/
def scanEndpointsLoop : List (String × Except String String) → Except String (List Endpoint)
  | [] => Except.ok []
  | (fp, r) :: rest =>
    match extractFromFile fp r with
    | Except.error e => Except.error e
    | Except.ok eps =>
      match scanEndpointsLoop rest with
      | Except.error e => Except.error e
      | Except.ok more => Except.ok (eps ++ more)

/-! ## TestAnalyzer (src/backend/src/agent/analyzer.ts)

`analyze` filters the failed results, tries `attemptFix` on each, counts
the fixed ones and converts each unfixed one into exactly one `Issue`,
then appends recommendations. `attemptFix` reads the test file once and
then performs at most `maxRetries = 3` generation attempts; a generated
candidate is accepted exactly when `isValidTestCode` holds of it.

The generative backend and the filesystem are modelled by oracles: the
file read is an `Except String String`, and attempt `i`'s outcome is
`gen i` — `none` when `analyzeFailure`/`writeFile` threw, `some code`
when it produced `code`. -/

inductive Severity where
  | low | medium | high | critical
deriving DecidableEq, Repr

inductive IssueType where
  | failure | security | performance | error
deriving DecidableEq, Repr

structure Issue where
  testFile : String
  endpoint : Option String
  severity : Severity
  type : IssueType
  message : String
  suggestion : Option String
deriving DecidableEq, Repr

structure TestResultM where
  testFile : String
  endpoint : Option String
  passed : Bool
  error : Option String
  duration : Option ℚ
deriving DecidableEq

structure TestRunResultsM where
  total : Nat
  passed : Nat
  failed : Nat
  results : List TestResultM
deriving DecidableEq

/-- `TestAnalyzer.isValidTestCode`: the remediation loop's structural
acceptance gate. -/
def isValidTestCode (code : String) : Bool :=
  hasSubstr code "@playwright/test"
    && (hasSubstr code "test(" || hasSubstr code "test.describe")
    && hasSubstr code "request"

/-- Outcome of `attemptFix`, extended with the number of generation
attempts actually performed (calls into the generative backend). -/
structure FixOutcome where
  fixed : Bool
  reason : Option String
  genCalls : Nat
deriving DecidableEq

/-- The `for (let attempt = 1; attempt <= maxRetries; attempt++)` loop:
each iteration performs one generation attempt; a thrown attempt
(`gen i = none`) is swallowed and the loop continues; a generated
candidate ends the loop successfully exactly when `isValidTestCode`
accepts it; exhaustion yields `Max retries exceeded`. -/
def runFixAttempts (gen : Nat → Option String) : List Nat → FixOutcome
  | [] => ⟨false, some "Max retries exceeded", 0⟩
  | i :: rest =>
    match gen i with
    | some code =>
      if isValidTestCode code then ⟨true, none, 1⟩
      else
        let r := runFixAttempts gen rest
        ⟨r.fixed, r.reason, r.genCalls + 1⟩
    | none =>
      let r := runFixAttempts gen rest
      ⟨r.fixed, r.reason, r.genCalls + 1⟩

/-- `TestAnalyzer.attemptFix`: no error message or an unreadable test file
short-circuits with zero generation attempts; otherwise the bounded
retry loop runs over attempts `1, 2, 3` (`maxRetries = 3`). -/
def attemptFix (t : TestResultM) (readResult : Except String String)
    (gen : Nat → Option String) : FixOutcome :=
  match t.error with
  | none => ⟨false, some "No error message available", 0⟩
  | some _ =>
    match readResult with
    | Except.error msg => ⟨false, some ("Cannot read test file: " ++ msg), 0⟩
    | Except.ok _ => runFixAttempts gen [1, 2, 3]

/-- `TestAnalyzer.createIssue`: severity and type from keyword matching on
the error text, the three checks applied in order with the later ones
overriding. -/
def createIssue (t : TestResultM) (reason : Option String) : Issue :=
  let err := t.error.getD ""
  let st : Severity × IssueType := (Severity.medium, IssueType.failure)
  let st :=
    if hasSubstr err "SQL" || hasSubstr err "XSS" || hasSubstr err "injection" then
      (Severity.high, IssueType.security)
    else st
  let st :=
    if hasSubstr err "timeout" || hasSubstr err "slow" || hasSubstr err "latency" then
      (Severity.medium, IssueType.performance)
    else st
  let st :=
    if hasSubstr err "500" || hasSubstr err "crash" || hasSubstr err "exception" then
      (Severity.critical, IssueType.error)
    else st
  ⟨t.testFile, t.endpoint, st.1, st.2, err, reason⟩

/-- `TestAnalyzer.generateRecommendations` (the recommendation strings are
abbreviated: their counts are not interpolated into the text, which no
claim depends on). -/
def generateRecommendations (tr : TestRunResultsM) (issues : List Issue) : List String :=
  let slowTests := tr.results.filter fun r =>
    match r.duration with
    | some d => decide (5000 < d)
    | none => false
  let r1 :=
    if 0 < slowTests.length then
      ["tests are taking longer than 5 seconds. Consider optimizing endpoint performance."]
    else []
  let securityIssues := issues.filter fun i => i.type = IssueType.security
  let r2 :=
    if 0 < securityIssues.length then
      ["potential security vulnerabilities. Review and implement proper input validation."]
    else []
  let criticalIssues := issues.filter fun i => i.severity = Severity.critical
  let r3 :=
    if 0 < criticalIssues.length then
      ["critical issues. These may indicate server crashes or unhandled exceptions."]
    else []
  let failureRate : ℚ := (tr.failed : ℚ) / (tr.total : ℚ)
  let r4 :=
    if 3 / 10 < failureRate then
      ["High failure rate. Review API implementation and test cases."]
    else []
  r1 ++ r2 ++ r3 ++ r4

structure AnalysisResult where
  totalTests : Nat
  passedTests : Nat
  failedTests : Nat
  fixedTests : Nat
  issues : List Issue
  recommendations : List String
deriving DecidableEq

/-- Per-failed-test environment: the test file's read result and the
generation oracle used by `attemptFix` for that test. -/
def AnalyzeEnv : Type := TestResultM → Except String String × (Nat → Option String)

/-- The `for (const failedTest of failedTests)` loop of `analyze`: count a
fixed test or push exactly one issue. -/
def analyzeLoop (env : AnalyzeEnv) : List TestResultM → Nat × List Issue
  | [] => (0, [])
  | t :: rest =>
    let fr := attemptFix t (env t).1 (env t).2
    let r := analyzeLoop env rest
    if fr.fixed then (r.1 + 1, r.2) else (r.1, createIssue t fr.reason :: r.2)

/-- `TestAnalyzer.analyze`. -/
def analyze (tr : TestRunResultsM) (env : AnalyzeEnv) : AnalysisResult :=
  let failedTests := tr.results.filter fun r => !r.passed
  let fi := analyzeLoop env failedTests
  { totalTests := tr.total
    passedTests := tr.passed
    failedTests := tr.failed
    fixedTests := fi.1
    issues := fi.2
    recommendations := generateRecommendations tr fi.2 }

/-! ## TestGenerator.mergeTestCode (src/backend/src/agent/performanceTester.ts)

The synthesis-stage acceptance gate: the AI-generated body replaces the
template exactly when it contains both `test(` and `@playwright/test`. -/

/-- The condition of `mergeTestCode`'s `if`. -/
def mergeGate (aiCode : String) : Bool :=
  hasSubstr aiCode "test(" && hasSubstr aiCode "@playwright/test"

/-- `TestGenerator.mergeTestCode`. -/
def mergeTestCode (template aiCode : String) : String :=
  if mergeGate aiCode then aiCode else template

/-! ## SecurityTester (src/backend/src/agent/authDetector.ts, second half)

Each payload family sends fixed payloads and classifies the simulated
response. The live HTTP layer is modelled by a `SecEnv` of oracles: for
a payload attempt, `none` models a thrown network error — that single
attempt is dropped — and `some r` models the received response. -/

structure SecResp where
  status : Nat
  body : String
deriving DecidableEq, Repr

inductive SecIssueType where
  | sql_injection | xss | path_traversal | large_payload | negative_value | unauthorized
deriving DecidableEq, Repr

structure SecResponseRecord where
  status : Nat
  body : Option String
  vulnerable : Bool
deriving DecidableEq, Repr

structure SecurityIssue where
  endpoint : String
  method : String
  payload : String
  type : SecIssueType
  severity : Severity
  response : SecResponseRecord
deriving DecidableEq, Repr

structure SecurityTestResults where
  totalTests : Nat
  issues : List SecurityIssue
  vulnerableEndpoints : List String
deriving DecidableEq, Repr

/-- The response oracles of one security run. -/
structure SecEnv where
  sql : Endpoint → String → Option SecResp
  xss : Endpoint → String → Option SecResp
  traversal : Endpoint → String → Option SecResp
  large : Endpoint → String → Option SecResp
  negative : Endpoint → Option SecResp
  unauthorized : Endpoint → Option SecResp

/-- `body.substring(0, 500)` — the stored response body is truncated. -/
def truncBody (b : String) : String := String.mk (b.data.take 500)

/-- `/ora-\d+/i` at the head of a lowercased character list. -/
def oraHere : List Char → Bool
  | 'o' :: 'r' :: 'a' :: '-' :: d :: _ => d.isDigit
  | _ => false

def oraMatch : List Char → Bool
  | [] => false
  | c :: cs => oraHere (c :: cs) || oraMatch cs

/-- `.`, as in a JavaScript regex without the `s` flag: any character but a
line terminator. -/
def dotCharJS (c : Char) : Bool :=
  !(c = '\n' || c = '\r' || c = '\u2028' || c = '\u2029')

/-- After `syntax error` has matched, `.*sql` — scan forward over
non-line-terminator characters for `sql`. -/
def sqlAfterDots : List Char → Bool
  | [] => false
  | c :: cs =>
    "sql".toList.isPrefixOf (c :: cs) || (dotCharJS c && sqlAfterDots cs)

def syntaxErrorSqlHere (cs : List Char) : Bool :=
  "syntax error".toList.isPrefixOf cs && sqlAfterDots (cs.drop 12)

/-- `/syntax error.*sql/i` on a lowercased character list. -/
def syntaxErrorSqlMatch : List Char → Bool
  | [] => false
  | c :: cs => syntaxErrorSqlHere (c :: cs) || syntaxErrorSqlMatch cs

/-- The `sqlErrorPatterns` array: does the body match one of the known
database-error fingerprints?  All seven patterns carry the `i` flag, so
matching runs on the lowercased body. -/
def sqlErrorFingerprint (body : String) : Bool :=
  let b := toLowerStr body
  hasSubstr b "sql syntax" || hasSubstr b "mysql" || hasSubstr b "postgresql"
    || hasSubstr b "sqlite" || oraMatch b.toList || hasSubstr b "sqlstate"
    || syntaxErrorSqlMatch b.toList

/-- `SecurityTester.detectSQLInjectionVulnerability`. -/
def detectSQLInjectionVulnerability (body : String) (status : Nat) : Bool :=
  if status = 200 then sqlErrorFingerprint body
  else if status = 500 then sqlErrorFingerprint body
  else false

/-- The fixed SQL-injection payload catalog. -/
def sqlInjectionPayloads : List String :=
  ["' OR 1=1 --", "' OR '1'='1", "1' OR '1'='1", "admin'--", "' UNION SELECT NULL--"]

/-- One recorded SQL-injection attempt. -/
def mkSqlIssue (e : Endpoint) (payload : String) (r : SecResp) : SecurityIssue :=
  let isVulnerable := detectSQLInjectionVulnerability r.body r.status
  ⟨e.path, e.method, payload, SecIssueType.sql_injection,
    if isVulnerable then Severity.high else Severity.low,
    ⟨r.status, some (truncBody r.body), isVulnerable⟩⟩

/-- `SecurityTester.testSQLInjection`: one issue per payload whose request
did not throw. -/
def testSQLInjection (e : Endpoint) (env : SecEnv) : List SecurityIssue :=
  sqlInjectionPayloads.filterMap fun p => (env.sql e p).map (mkSqlIssue e p)

/-- The fixed XSS payload catalog. -/
def xssPayloads : List String :=
  ["<script>alert(1)</script>", "<img src=x onerror=alert(1)>",
   "javascript:alert(1)", "<svg onload=alert(1)>"]

/-- The XSS classification of the source:
`body.includes(payload) && !body.includes('&lt;script&gt;')` — note the
second check is against the fixed string `&lt;script&gt;`, whatever the
payload. -/
def xssVulnerable (payload body : String) : Bool :=
  hasSubstr body payload && !hasSubstr body "&lt;script&gt;"

def mkXssIssue (e : Endpoint) (payload : String) (r : SecResp) : SecurityIssue :=
  let isVulnerable := xssVulnerable payload r.body
  ⟨e.path, e.method, payload, SecIssueType.xss,
    if isVulnerable then Severity.high else Severity.low,
    ⟨r.status, some (truncBody r.body), isVulnerable⟩⟩

/-- `SecurityTester.testXSS`. -/
def testXSS (e : Endpoint) (env : SecEnv) : List SecurityIssue :=
  xssPayloads.filterMap fun p => (env.xss e p).map (mkXssIssue e p)

/-- The fixed path-traversal payload catalog. -/
def pathTraversalPayloads : List String :=
  ["../../../etc/passwd", "..\\..\\..\\windows\\system32\\config\\sam",
   "....//....//....//etc/passwd"]

def mkTraversalIssue (e : Endpoint) (payload : String) (r : SecResp) : SecurityIssue :=
  let isVulnerable := hasSubstr r.body "root:" || hasSubstr r.body "[boot loader]"
  ⟨e.path, e.method, payload, SecIssueType.path_traversal,
    if isVulnerable then Severity.critical else Severity.low,
    ⟨r.status, some (truncBody r.body), isVulnerable⟩⟩

/-- `SecurityTester.testPathTraversal`. -/
def testPathTraversal (e : Endpoint) (env : SecEnv) : List SecurityIssue :=
  pathTraversalPayloads.filterMap fun p => (env.traversal e p).map (mkTraversalIssue e p)

/-- The oversized request body: `'x'.repeat(100000)`. -/
def largePayloadBody : String := String.mk (List.replicate 100000 'x')

def mkLargePayloadIssue (e : Endpoint) (r : SecResp) : SecurityIssue :=
  let isVulnerable := r.status = 500 || r.status = 413
  ⟨e.path, e.method, "Large payload (100KB)", SecIssueType.large_payload,
    if isVulnerable then Severity.medium else Severity.low,
    ⟨r.status, none, isVulnerable⟩⟩

/-- `SecurityTester.testLargePayload`: skipped entirely for GET/DELETE; a
thrown request yields no issue. -/
def testLargePayload (e : Endpoint) (env : SecEnv) : List SecurityIssue :=
  if e.method = "GET" || e.method = "DELETE" then []
  else
    match env.large e largePayloadBody with
    | none => []
    | some r => [mkLargePayloadIssue e r]

def mkNegativeIssue (e : Endpoint) (r : SecResp) : SecurityIssue :=
  let isVulnerable := decide (r.status < 400) && !hasSubstr r.body "error"
  ⟨e.path, e.method, "negative id, price and quantity", SecIssueType.negative_value,
    if isVulnerable then Severity.medium else Severity.low,
    ⟨r.status, none, isVulnerable⟩⟩

/-- `SecurityTester.testNegativeValues`. -/
def testNegativeValues (e : Endpoint) (env : SecEnv) : List SecurityIssue :=
  if e.method = "GET" || e.method = "DELETE" then []
  else
    match env.negative e with
    | none => []
    | some r => [mkNegativeIssue e r]

def mkUnauthorizedIssue (e : Endpoint) (r : SecResp) : SecurityIssue :=
  let isVulnerable := decide (r.status < 400)
  ⟨e.path, e.method, "No authentication token", SecIssueType.unauthorized,
    if isVulnerable then Severity.critical else Severity.low,
    ⟨r.status, none, isVulnerable⟩⟩

/-- `SecurityTester.testUnauthorizedAccess`. -/
def testUnauthorizedAccess (e : Endpoint) (env : SecEnv) : List SecurityIssue :=
  match env.unauthorized e with
  | none => []
  | some r => [mkUnauthorizedIssue e r]

/-- The key under which an endpoint enters the vulnerable set. -/
def vulnKey (e : Endpoint) : String := e.method ++ " " ++ e.path

/-- `Set.add`: insertion order with duplicates dropped. -/
def addVulnKey (s : List String) (k : String) : List String :=
  if k ∈ s then s else s ++ [k]

/-- The `issues.forEach(...)` blocks after the SQLi/XSS/traversal families:
add the endpoint's key once per vulnerable issue. -/
def addIssuesVuln (k : String) (issues : List SecurityIssue) (s : List String) : List String :=
  issues.foldl (fun acc i => if i.response.vulnerable then addVulnKey acc k else acc) s

/-- The `for (const endpoint of endpoints)` loop of
`SecurityTester.testEndpoints`, accumulating issues and the vulnerable
set; only the SQL-injection, XSS and path-traversal families feed the
vulnerable set, and the unauthorized family runs only when the endpoint
is marked `authRequired`. -/
def secLoop (env : SecEnv) : List Endpoint → List String → List SecurityIssue × List String
  | [], vuln => ([], vuln)
  | e :: rest, vuln =>
    let sqlIssues := testSQLInjection e env
    let vuln := addIssuesVuln (vulnKey e) sqlIssues vuln
    let xssIssues := testXSS e env
    let vuln := addIssuesVuln (vulnKey e) xssIssues vuln
    let pathIssues := testPathTraversal e env
    let vuln := addIssuesVuln (vulnKey e) pathIssues vuln
    let largePayloadIssues := testLargePayload e env
    let negativeIssues := testNegativeValues e env
    let authIssues :=
      match e.authRequired with
      | some true => testUnauthorizedAccess e env
      | _ => []
    let r := secLoop env rest vuln
    (sqlIssues ++ xssIssues ++ pathIssues ++ largePayloadIssues ++ negativeIssues
       ++ authIssues ++ r.1, r.2)

/-- `SecurityTester.testEndpoints`. -/
def securityTestEndpoints (endpoints : List Endpoint) (env : SecEnv) : SecurityTestResults :=
  let r := secLoop env endpoints []
  ⟨r.1.length, r.1, r.2⟩

/-! ## PerformanceTester (src/backend/src/agent/performanceTester.ts)

`testEndpointPerformance` fires `concurrentRequests = 20` requests,
records `totalTime / 20` as every sample's latency, sorts, and reads the
percentiles off the sorted array at `floor(n * 0.95)` and
`floor(n * 0.99)`. Times are modelled by rationals. -/

inductive PerfStatus where
  | fast | moderate | slow | very_slow
deriving DecidableEq, Repr

structure PerformanceMetric where
  endpoint : String
  method : String
  averageLatency : ℚ
  minLatency : ℚ
  maxLatency : ℚ
  p95Latency : ℚ
  p99Latency : ℚ
  requestsPerSecond : ℚ
  slowRequests : Nat
  status : PerfStatus
deriving DecidableEq, Repr

/-- `latencies.sort((a, b) => a - b)`: ascending numeric sort (modelled by
insertion sort; only the sorted order is observable). -/
def insertAsc (x : ℚ) : List ℚ → List ℚ
  | [] => [x]
  | y :: ys => if x ≤ y then x :: y :: ys else y :: insertAsc x ys

def sortAsc (l : List ℚ) : List ℚ := l.foldr insertAsc []

/-- The metric computation of `testEndpointPerformance` from the latency
samples (the part after the requests resolve); `latencies[i] || 0`
becomes a lookup with default `0`. -/
def perfMetricCore (e : Endpoint) (totalTime : ℚ) (latencies : List ℚ) : PerformanceMetric :=
  let sorted := sortAsc latencies
  let averageLatency := (sorted.foldl (· + ·) 0) / (sorted.length : ℚ)
  let minLatency := sorted.headD 0
  let maxLatency := (sorted.getLast?).getD 0
  let p95Index := (⌊(sorted.length : ℚ) * (95 / 100)⌋).toNat
  let p99Index := (⌊(sorted.length : ℚ) * (99 / 100)⌋).toNat
  let p95Latency := (sorted.get? p95Index).getD 0
  let p99Latency := (sorted.get? p99Index).getD 0
  let requestsPerSecond := 20 / totalTime * 1000
  let slowRequests := (sorted.filter fun l => decide (500 < l)).length
  let status :=
    if averageLatency < 200 then PerfStatus.fast
    else if averageLatency < 500 then PerfStatus.moderate
    else if averageLatency < 1000 then PerfStatus.slow
    else PerfStatus.very_slow
  ⟨e.path, e.method, averageLatency, minLatency, maxLatency, p95Latency, p99Latency,
    requestsPerSecond, slowRequests, status⟩

/-- `PerformanceTester.testEndpointPerformance`: every one of the 20
responses contributes the sample `totalTime / concurrentRequests`. -/
def testEndpointPerformance (e : Endpoint) (totalTime : ℚ) : PerformanceMetric :=
  perfMetricCore e totalTime (List.replicate 20 (totalTime / 20))

/-! ## OpenAPI discovery (src/backend/src/ollamaClient.ts, second half)

`discoverEndpointsFromOpenApi` walks the top-level `paths` mapping of the
fetched JSON document. The parsed document is modelled by a small JSON
value type; the HTTP fetch and the string-body `JSON.parse` re-parse are
outside the model, which starts from the parsed value. -/

inductive Json where
  | null : Json
  | bool : Bool → Json
  | num : ℚ → Json
  | str : String → Json
  | arr : List Json → Json
  | obj : List (String × Json) → Json

/-- JavaScript property lookup `v[k]` for the values that can carry the
looked-up keys here: an object's own string key (parsed JSON objects
have unique keys); on every other value the named properties read here
are `undefined`. -/
def Json.lookup : Json → String → Option Json
  | .obj kvs, k => (kvs.find? fun kv => kv.1 == k).map (·.2)
  | _, _ => none

/-- JavaScript truthiness. -/
def Json.isTruthy : Json → Bool
  | .null => false
  | .bool b => b
  | .num q => q != 0
  | .str s => !s.isEmpty
  | .arr _ => true
  | .obj _ => true

/-- `typeof v === 'object'` (true of objects, arrays and `null`). -/
def Json.typeofIsObject : Json → Bool
  | .null => true
  | .arr _ => true
  | .obj _ => true
  | _ => false

/-- `Object.entries` on the values that pass the object check: an object's
own entries (for a parsed `paths` mapping, route keys are not integer
indices, so this is insertion order), an array's index/value pairs. -/
def Json.entriesJS : Json → List (String × Json)
  | .obj kvs => kvs
  | .arr l => (l.enum).map fun iv => (toString iv.1, iv.2)
  | _ => []

def HTTP_METHODS : List String :=
  ["get", "post", "put", "delete", "patch", "head", "options"]

/-- `Array.isArray(op.security) && op.security.length > 0`. -/
def securityNonEmpty (op : Json) : Bool :=
  match op.lookup "security" with
  | some (Json.arr l) => !l.isEmpty
  | _ => false

/-- The inner `for (const method of HTTP_METHODS)` loop for one path entry:
skip an absent operation and an operation that is falsy or not
`typeof 'object'`; otherwise emit one endpoint whose `authRequired` is
the non-empty-security-array check. -/
def openApiOps (url pathKey : String) (item : Json) : List Endpoint :=
  HTTP_METHODS.filterMap fun m =>
    match item.lookup m with
    | none => none
    | some op =>
      if op.isTruthy && op.typeofIsObject then
        some ⟨toUpperStr m, pathKey, url, none, some (securityNonEmpty op), none⟩
      else none

/-- The outer `for (const [path, pathItem] of Object.entries(spec.paths))`
loop: skip a falsy or non-object path item, and a path that does not
start with `/`. -/
def openApiPathsEmit (url : String) : List (String × Json) → List Endpoint
  | [] => []
  | pi :: rest =>
    (if pi.2.isTruthy && pi.2.typeofIsObject && strStartsWith pi.1 "/" then
       openApiOps url pi.1 pi.2
     else []) ++ openApiPathsEmit url rest

/-- `discoverEndpointsFromOpenApi` on the parsed document: a missing, falsy
or non-object `spec.paths` throws the format error; otherwise the paths
mapping is walked entry by entry. -/
def discoverEndpointsFromOpenApi (url : String) (spec : Json) : Except String (List Endpoint) :=
  match spec.lookup "paths" with
  | none => Except.error "Invalid OpenAPI spec: missing or invalid \"paths\""
  | some pathsJ =>
    if pathsJ.isTruthy && pathsJ.typeofIsObject then
      Except.ok (openApiPathsEmit url pathsJ.entriesJS)
    else Except.error "Invalid OpenAPI spec: missing or invalid \"paths\""

/-- The verbs of a path entry that pass the operation check — each will
yield exactly one endpoint. -/
def verbOpsOf (item : Json) : List String :=
  HTTP_METHODS.filter fun m =>
    match item.lookup m with
    | some op => op.isTruthy && op.typeofIsObject
    | none => false

/-! ## Claim-side definitions and concrete fixtures -/

/-- The claimed notion of a payload's HTML-escaped form (stated from the
spec's words, for comparison: the source compares the body against the
fixed string `&lt;script&gt;` instead). -/
def htmlEscapeChar (c : Char) : String :=
  if c = '<' then "&lt;"
  else if c = '>' then "&gt;"
  else if c = '&' then "&amp;"
  else if c = '"' then "&quot;"
  else if c = '\'' then "&#39;"
  else String.singleton c

def htmlEscape (s : String) : String := String.join (s.toList.map htmlEscapeChar)

/-- A GET route used to instantiate the security classifications. -/
def epSearch : Endpoint := ⟨"GET", "/search", "routes/search.js", some 1, none, none⟩

/-- A POST route used to instantiate the body-sending probes. -/
def epUpload : Endpoint := ⟨"POST", "/upload", "routes/upload.js", some 1, none, none⟩

/-- An environment in which every request receives the same outcome. -/
def secEnvConst (r : Option SecResp) : SecEnv :=
  ⟨fun _ _ => r, fun _ _ => r, fun _ _ => r, fun _ _ => r, fun _ => r, fun _ => r⟩

/-- The second XSS catalog payload. -/
def xssCexPayload : String := "<img src=x onerror=alert(1)>"

/-- A response body that reflects that payload raw and also contains its
HTML-escaped form. -/
def xssCexBody : String := xssCexPayload ++ htmlEscape xssCexPayload

/-- A candidate test body containing a test declaration and the framework
marker but not the substring `request`. -/
def c8CexCode : String := "import { test } from '@playwright/test'\ntest(sample)"

/-- The paths mapping of the spec's document-mode example. -/
def c7ExamplePaths : List (String × Json) :=
  [("/a", Json.obj [("get", Json.obj [])]),
   ("/b", Json.obj [("post", Json.obj [("security", Json.arr [Json.obj []])])])]

def c7ExampleDoc : Json := Json.obj [("paths", Json.obj c7ExamplePaths)]

/-- A document whose paths mapping has the key `a` (no leading slash) with
a `get` operation present. -/
def c7CexDoc : Json :=
  Json.obj [("paths", Json.obj [("a", Json.obj [("get", Json.obj [])])])]

/-! ## Helper lemmas -/

/-- `detectAuthMiddleware` only rewrites the `authRequired` and `middleware`
fields: method and path survive annotation. -/
theorem annotateEndpoint_preserves (lines : List String) (e : Endpoint) :
    (annotateEndpoint lines e).method = e.method ∧ (annotateEndpoint lines e).path = e.path := by
  unfold annotateEndpoint
  rcases e with ⟨m, p, f, ln, a, mw⟩
  cases ln with
  | none => exact ⟨rfl, rfl⟩
  | some n =>
    dsimp only
    split
    · exact ⟨rfl, rfl⟩
    · split
      · exact ⟨rfl, rfl⟩
      · exact ⟨rfl, rfl⟩

theorem map_proj_annotate (lines : List String) :
    ∀ es : List Endpoint,
      (es.map (annotateEndpoint lines)).map (fun e => (e.method, e.path))
        = es.map fun e => (e.method, e.path) := by
  intro es
  induction es with
  | nil => rfl
  | cons e rest ih =>
    simp only [List.map_cons, ih, List.cons.injEq, and_true]
    rw [(annotateEndpoint_preserves lines e).1, (annotateEndpoint_preserves lines e).2]

/-- The per-line loop emits, in order, one record per match of the two route
regexes on each line. -/
theorem extractLines_proj (fp : String) :
    ∀ (ls : List String) (n : Nat),
      (extractLines fp n ls).map (fun e => (e.method, e.path))
        = (ls.map fun l =>
            (routeCallsOfLine l).map fun vp => (toUpperStr vp.1, vp.2)).flatten := by
  intro ls
  induction ls with
  | nil => intro n; rfl
  | cons l rest ih =>
    intro n
    simp only [extractLines, List.map_append, List.map_map, List.map_cons, List.flatten_cons, ih]
    rfl

theorem extractLines_length (fp : String) :
    ∀ (ls : List String) (n : Nat),
      (extractLines fp n ls).length
        = (ls.map fun l => (routeCallsOfLine l).length).sum := by
  intro ls
  induction ls with
  | nil => intro n; rfl
  | cons l rest ih =>
    intro n
    simp only [extractLines, List.length_append, List.length_map, List.map_cons,
      List.sum_cons, ih]

theorem runFixAttempts_genCalls_le (gen : Nat → Option String) :
    ∀ l : List Nat, (runFixAttempts gen l).genCalls ≤ l.length := by
  intro l
  induction l with
  | nil => simp [runFixAttempts]
  | cons i rest ih =>
    simp only [runFixAttempts, List.length_cons]
    cases gen i with
    | none => simpa using Nat.add_le_add_right ih 1
    | some code =>
      by_cases h : isValidTestCode code = true
      · simp [h]
      · simp only [h]
        simpa [if_neg h] using Nat.add_le_add_right ih 1

/-- Each failed test contributes to exactly one of the fix counter and the
issue list. -/
theorem analyzeLoop_counts (env : AnalyzeEnv) :
    ∀ l : List TestResultM, (analyzeLoop env l).1 + (analyzeLoop env l).2.length = l.length := by
  intro l
  induction l with
  | nil => rfl
  | cons t rest ih =>
    cases hfix : (attemptFix t (env t).1 (env t).2).fixed <;>
      simp [analyzeLoop, hfix] <;> omega

theorem insertAsc_replicate_self (x : ℚ) (n : Nat) :
    insertAsc x (List.replicate n x) = List.replicate (n + 1) x := by
  cases n with
  | zero => rfl
  | succ k => simp [List.replicate_succ, insertAsc, le_refl]

theorem sortAsc_replicate (x : ℚ) (n : Nat) :
    sortAsc (List.replicate n x) = List.replicate n x := by
  induction n with
  | zero => rfl
  | succ k ih =>
    simp only [sortAsc, List.replicate_succ, List.foldr_cons] at ih ⊢
    rw [ih, insertAsc_replicate_self, List.replicate_succ]

theorem foldl_add_replicate (x : ℚ) (n : Nat) : ∀ a : ℚ,
    (List.replicate n x).foldl (· + ·) a = a + n * x := by
  induction n with
  | zero => intro a; simp
  | succ k ih =>
    intro a
    simp only [List.replicate_succ, List.foldl_cons, ih]
    push_cast
    ring

theorem get?_replicate_lt (x : ℚ) {i n : Nat} (h : i < n) :
    (List.replicate n x).get? i = some x := by
  induction n generalizing i with
  | zero => omega
  | succ k ih =>
    cases i with
    | zero => rfl
    | succ j =>
      simp only [List.replicate_succ, List.get?_cons_succ]
      exact ih (by omega)

theorem mem_addVulnKey (s : List String) (k a : String) :
    a ∈ addVulnKey s k ↔ a ∈ s ∨ a = k := by
  unfold addVulnKey
  by_cases hk : k ∈ s
  · rw [if_pos hk]
    constructor
    · exact Or.inl
    · rintro (h | rfl)
      · exact h
      · exact hk
  · rw [if_neg hk]
    simp

theorem mem_addIssuesVuln (k a : String) :
    ∀ (issues : List SecurityIssue) (s : List String),
      a ∈ addIssuesVuln k issues s ↔
        a ∈ s ∨ (a = k ∧ ∃ i ∈ issues, i.response.vulnerable = true) := by
  intro issues
  induction issues with
  | nil => intro s; simp [addIssuesVuln]
  | cons i rest ih =>
    intro s
    rw [show addIssuesVuln k (i :: rest) s
        = addIssuesVuln k rest (if i.response.vulnerable then addVulnKey s k else s) from rfl]
    rw [ih]
    by_cases hv : i.response.vulnerable = true
    · simp only [hv, if_true, mem_addVulnKey, List.mem_cons]
      constructor
      · rintro ((h | rfl) | ⟨rfl, j, hj, hjv⟩)
        · exact Or.inl h
        · exact Or.inr ⟨rfl, i, Or.inl rfl, hv⟩
        · exact Or.inr ⟨rfl, j, Or.inr hj, hjv⟩
      · rintro (h | ⟨rfl, j, (rfl | hj), hjv⟩)
        · exact Or.inl (Or.inl h)
        · exact Or.inl (Or.inr rfl)
        · exact Or.inr ⟨rfl, j, hj, hjv⟩
    · rw [if_neg hv]
      constructor
      · rintro (h | ⟨rfl, j, hj, hjv⟩)
        · exact Or.inl h
        · exact Or.inr ⟨rfl, j, List.mem_cons_of_mem i hj, hjv⟩
      · rintro (h | ⟨rfl, j, hj, hjv⟩)
        · exact Or.inl h
        · rcases List.mem_cons.mp hj with rfl | hj'
          · exact absurd hjv hv
          · exact Or.inr ⟨rfl, j, hj', hjv⟩

/-- Membership in the vulnerable set accumulated by the endpoint loop: a key
is present exactly when it was present initially or some endpoint of the
list contributed a vulnerable SQL-injection, XSS or path-traversal
issue under that key. -/
theorem secLoop_vuln_mem (env : SecEnv) (a : String) :
    ∀ (l : List Endpoint) (vuln : List String),
      a ∈ (secLoop env l vuln).2 ↔
        a ∈ vuln ∨ ∃ e ∈ l, a = vulnKey e ∧
          ∃ i ∈ testSQLInjection e env ++ testXSS e env ++ testPathTraversal e env,
            i.response.vulnerable = true := by
  intro l
  induction l with
  | nil => intro vuln; simp [secLoop]
  | cons e rest ih =>
    intro vuln
    rw [show (secLoop env (e :: rest) vuln).2
        = (secLoop env rest
            (addIssuesVuln (vulnKey e) (testPathTraversal e env)
              (addIssuesVuln (vulnKey e) (testXSS e env)
                (addIssuesVuln (vulnKey e) (testSQLInjection e env) vuln)))).2 from rfl]
    rw [ih, mem_addIssuesVuln, mem_addIssuesVuln, mem_addIssuesVuln]
    simp only [List.mem_cons, List.mem_append, exists_eq_or_imp]
    constructor
    · rintro ((((h | ⟨rfl, i, hi, hv⟩) | ⟨rfl, i, hi, hv⟩) | ⟨rfl, i, hi, hv⟩) | hrest)
      · exact Or.inl h
      · exact Or.inr (Or.inl ⟨rfl, i, Or.inl (Or.inl hi), hv⟩)
      · exact Or.inr (Or.inl ⟨rfl, i, Or.inl (Or.inr hi), hv⟩)
      · exact Or.inr (Or.inl ⟨rfl, i, Or.inr hi, hv⟩)
      · exact Or.inr (Or.inr hrest)
    · rintro (h | (⟨rfl, i, ((hi | hi) | hi), hv⟩ | hrest))
      · exact Or.inl (Or.inl (Or.inl (Or.inl h)))
      · exact Or.inl (Or.inl (Or.inl (Or.inr ⟨rfl, i, hi, hv⟩)))
      · exact Or.inl (Or.inl (Or.inr ⟨rfl, i, hi, hv⟩))
      · exact Or.inl (Or.inr ⟨rfl, i, hi, hv⟩)
      · exact Or.inr hrest

theorem filterMap_length_eq_filter_length {α β : Type} (f : α → Option β) (g : α → Bool)
    (h : ∀ x, (f x).isSome = g x) :
    ∀ l : List α, (l.filterMap f).length = (l.filter g).length := by
  intro l
  induction l with
  | nil => rfl
  | cons x rest ih =>
    cases hf : f x with
    | none =>
      have hg : g x = false := by rw [← h]; simp [hf]
      simp [List.filterMap_cons, List.filter_cons, hf, hg, ih]
    | some b =>
      have hg : g x = true := by rw [← h]; simp [hf]
      simp [List.filterMap_cons, List.filter_cons, hf, hg, ih]

/-- One endpoint is emitted per verb whose operation passes the object
check. -/
theorem openApiOps_length (url p : String) (item : Json) :
    (openApiOps url p item).length = (verbOpsOf item).length := by
  unfold openApiOps verbOpsOf
  apply filterMap_length_eq_filter_length
  intro m
  cases hm : item.lookup m with
  | none => simp
  | some op => by_cases hop : (op.isTruthy && op.typeofIsObject) = true <;> simp [hop]

theorem openApiPathsEmit_length (url : String) :
    ∀ kvs : List (String × Json),
      (openApiPathsEmit url kvs).length
        = (kvs.map fun pi =>
            if pi.2.isTruthy && pi.2.typeofIsObject && strStartsWith pi.1 "/" then
              (verbOpsOf pi.2).length
            else 0).sum := by
  intro kvs
  induction kvs with
  | nil => rfl
  | cons pi rest ih =>
    simp only [openApiPathsEmit, List.length_append, List.map_cons, List.sum_cons, ih]
    by_cases hc : (pi.2.isTruthy && pi.2.typeofIsObject && strStartsWith pi.1 "/") = true
    · simp [hc, openApiOps_length]
    · simp [hc]

/-! ## The claims -/

/-- C1. For every source file, `extractFromFile` returns exactly one
`Endpoint` per syntactic route-declaration occurrence (a match of the
router-style or app-style pattern on a line, multiple matches per line
each counted): the extracted records project, in order, onto the
per-line match occurrences — so the endpoint count is the total match
count and duplicate `(method, path)` pairs are preserved, one per
occurrence. -/
theorem c1_extraction_count :
    ∀ fp content : String,
      ((extractEndpoints fp content).map fun e => (e.method, e.path))
          = ((splitLines content).map fun l =>
              (routeCallsOfLine l).map fun vp => (toUpperStr vp.1, vp.2)).flatten
        ∧ (extractEndpoints fp content).length
            = ((splitLines content).map fun l => (routeCallsOfLine l).length).sum := by
  intro fp content
  constructor
  · unfold extractEndpoints
    rw [map_proj_annotate, extractLines_proj]
  · unfold extractEndpoints
    rw [List.length_map, extractLines_length]

/-- C2. `attemptFix` performs at most 3 generation attempts whatever the
probe, the file read and the generator outcomes; and in every `analyze`
run each originally-failed probe is either counted fixed or yields
exactly one `Issue`, so `fixedTests` plus the number of issues equals
the number of failed results. -/
theorem c2_remediation_bounds :
    (∀ (t : TestResultM) (readResult : Except String String) (gen : Nat → Option String),
        (attemptFix t readResult gen).genCalls ≤ 3)
      ∧ ∀ (tr : TestRunResultsM) (env : AnalyzeEnv),
          (analyze tr env).fixedTests + (analyze tr env).issues.length
            = (tr.results.filter fun r => !r.passed).length := by
  constructor
  · intro t readResult gen
    unfold attemptFix
    cases t.error with
    | none => simp
    | some e =>
      cases readResult with
      | error msg => simp
      | ok content => exact runFixAttempts_genCalls_le gen [1, 2, 3]
  · intro tr env
    exact analyzeLoop_counts env (tr.results.filter fun r => !r.passed)

/-- C3, counterexample. The claim says a file that cannot be read yields an
empty endpoint list and the per-file loop continues; in fact
`extractFromFile` re-throws a `Failed to extract endpoints` error and
the loop in `routes.ts` aborts, never reaching the next (readable,
route-bearing) file. -/
theorem c3_read_failure_counterexample :
    extractFromFile "a.js" (Except.error "EACCES: permission denied")
        = Except.error "Failed to extract endpoints from a.js: EACCES: permission denied"
      ∧ scanEndpointsLoop
          [("a.js", Except.error "EACCES: permission denied"),
           ("b.js", Except.ok "router.get('/x', handler)")]
        = Except.error "Failed to extract endpoints from a.js: EACCES: permission denied" :=
  ⟨rfl, rfl⟩

/-- C3, amended. A file whose content is read successfully never makes
extraction throw — a file with no recognizable route declaration yields
an empty list — but a file that cannot be read makes `extractFromFile`
throw an error naming the file, and the per-file loop propagates that
error instead of continuing. -/
theorem c3_amended_error_propagation :
    (∀ fp content, ∃ eps, extractFromFile fp (Except.ok content) = Except.ok eps)
      ∧ (∀ fp msg, ∃ err, extractFromFile fp (Except.error msg) = Except.error err)
      ∧ (∀ fp msg rest, ∃ err,
          scanEndpointsLoop ((fp, Except.error msg) :: rest) = Except.error err)
      ∧ extractEndpoints "lib.js" "const helper = (x) => x + 1;" = [] := by
  refine ⟨fun fp content => ⟨_, rfl⟩, fun fp msg => ⟨_, rfl⟩, fun fp msg rest => ⟨_, rfl⟩, ?_⟩
  decide

/-- C4. `detectSQLInjectionVulnerability` holds exactly when the status is
200 or 500 and the body matches one of the database-error fingerprints;
in particular the payload `' OR 1=1 --` against a status-200 response
whose body contains `SQL syntax` is recorded vulnerable with severity
high, and the same payload against a fingerprint-free body is recorded
not vulnerable (severity low). -/
theorem c4_sql_injection_classification :
    (∀ (body : String) (status : Nat),
        detectSQLInjectionVulnerability body status = true ↔
          ((status = 200 ∨ status = 500) ∧ sqlErrorFingerprint body = true))
      ∧ (mkSqlIssue epSearch "' OR 1=1 --"
            ⟨200, "You have an error in your SQL syntax"⟩).response.vulnerable = true
      ∧ (mkSqlIssue epSearch "' OR 1=1 --"
            ⟨200, "You have an error in your SQL syntax"⟩).severity = Severity.high
      ∧ (mkSqlIssue epSearch "' OR 1=1 --"
            ⟨200, "request completed"⟩).response.vulnerable = false
      ∧ (mkSqlIssue epSearch "' OR 1=1 --"
            ⟨200, "request completed"⟩).severity = Severity.low := by
  refine ⟨fun body status => ?_, by decide, by decide, by decide, by decide⟩
  by_cases h200 : status = 200 <;> by_cases h500 : status = 500 <;>
    simp [detectSQLInjectionVulnerability, h200, h500]

/-- C5, counterexample. For the catalog payload
`<img src=x onerror=alert(1)>` and a body containing both the raw
payload and its HTML-escaped form (but no escaped `<script>`), the code
classifies the attempt vulnerable although the claimed rule — raw
payload present and the payload's escaped form absent — is false; the
third conjunct shows the classification through `testXSS` itself. -/
theorem c5_escaped_form_counterexample :
    xssVulnerable xssCexPayload xssCexBody = true
      ∧ (hasSubstr xssCexBody xssCexPayload
          && !hasSubstr xssCexBody (htmlEscape xssCexPayload)) = false
      ∧ (testXSS epSearch (secEnvConst (some ⟨200, xssCexBody⟩))).map
          (fun i => i.response.vulnerable) = [false, true, false, false] :=
  ⟨by decide, by decide, by decide⟩

/-- C5, amended. `testXSS` emits, in catalog order, one issue per payload
whose request did not throw, and classifies it vulnerable exactly when
the response body contains the raw payload substring and does not
contain the fixed string `&lt;script&gt;` — the HTML-escaped `<script>`
marker — regardless of the payload's own escaped form. -/
theorem c5_amended_xss_rule :
    ∀ (e : Endpoint) (env : SecEnv),
      (testXSS e env).map (fun i => (i.payload, i.response.vulnerable))
        = xssPayloads.filterMap fun p => (env.xss e p).map
            fun r => (p, hasSubstr r.body p && !hasSubstr r.body "&lt;script&gt;") := by
  intro e env
  simp only [testXSS, List.map_filterMap, Option.map_map]
  rfl

/-- C6. The oversized-payload probe sends a body of 100,000 repeated
characters and classifies the route vulnerable exactly when the
response status is 500 or 413 — a well-formed 413 rejection is
reported vulnerable, as specified. -/
theorem c6_large_payload_rule :
    largePayloadBody.length = 100000
      ∧ ∀ (e : Endpoint) (env : SecEnv) (r : SecResp) (issue : SecurityIssue),
          env.large e largePayloadBody = some r → issue ∈ testLargePayload e env →
            (issue.response.vulnerable = true ↔ (r.status = 500 ∨ r.status = 413))
              ∧ issue.response.status = r.status
              ∧ issue.type = SecIssueType.large_payload := by
  constructor
  · show (List.replicate 100000 'x').length = 100000
    rw [List.length_replicate]
  · intro e env r issue henv hmem
    unfold testLargePayload at hmem
    by_cases hm : (e.method = "GET" || e.method = "DELETE") = true
    · simp [hm] at hmem
    · rw [if_neg (by simpa using hm), henv] at hmem
      rcases List.mem_singleton.mp hmem with rfl
      refine ⟨?_, rfl, rfl⟩
      simp [mkLargePayloadIssue]

/-- C6, witness: a POST route receiving status 413 for the oversized body
is classified vulnerable. -/
theorem c6_large_payload_rule_witness :
    ((mkLargePayloadIssue epUpload ⟨413, "Payload Too Large"⟩).response.vulnerable = true
        ↔ ((413 : Nat) = 500 ∨ (413 : Nat) = 413))
      ∧ (mkLargePayloadIssue epUpload ⟨413, "Payload Too Large"⟩).response.status = 413
      ∧ (mkLargePayloadIssue epUpload ⟨413, "Payload Too Large"⟩).type
          = SecIssueType.large_payload :=
  c6_large_payload_rule.2 epUpload (secEnvConst (some ⟨413, "Payload Too Large"⟩))
    ⟨413, "Payload Too Large"⟩ (mkLargePayloadIssue epUpload ⟨413, "Payload Too Large"⟩)
    rfl (List.mem_singleton.mpr rfl)

/-- C7, counterexample. The claim promises one endpoint for every path key
of the paths mapping and every verb key present; but for the document
whose paths mapping binds the key `a` (no leading slash) to an entry
with a `get` operation, discovery emits no endpoint at all. -/
theorem c7_skipped_path_counterexample :
    discoverEndpointsFromOpenApi "u" c7CexDoc = Except.ok []
      ∧ (Json.obj [("get", Json.obj [])]).lookup "get" = some (Json.obj []) :=
  ⟨rfl, rfl⟩

/-- C7, amended. A document without a top-level paths mapping fails with
the format error; when the paths value is an object, discovery emits
exactly one endpoint per path entry that starts with `/` and is
object-like, for each of the 7 standard verbs whose operation value is
object-like (other entries are skipped); and on the spec's example
document it yields exactly `GET /a` with `authRequired = false` and
`POST /b` with `authRequired = true`. -/
theorem c7_amended_document_mode :
    (∀ (url : String) (spec : Json), spec.lookup "paths" = none →
        ∃ msg, discoverEndpointsFromOpenApi url spec = Except.error msg)
      ∧ (∀ (url : String) (spec : Json) (kvs : List (String × Json)) (eps : List Endpoint),
          spec.lookup "paths" = some (Json.obj kvs) →
          discoverEndpointsFromOpenApi url spec = Except.ok eps →
          eps.length = (kvs.map fun pi =>
            if pi.2.isTruthy && pi.2.typeofIsObject && strStartsWith pi.1 "/" then
              (verbOpsOf pi.2).length
            else 0).sum)
      ∧ discoverEndpointsFromOpenApi "u" c7ExampleDoc
          = Except.ok [⟨"GET", "/a", "u", none, some false, none⟩,
                       ⟨"POST", "/b", "u", none, some true, none⟩] := by
  refine ⟨?_, ?_, rfl⟩
  · intro url spec h
    unfold discoverEndpointsFromOpenApi
    rw [h]
    exact ⟨_, rfl⟩
  · intro url spec kvs eps hp hok
    unfold discoverEndpointsFromOpenApi at hok
    rw [hp] at hok
    have hemit : openApiPathsEmit url kvs = eps := by
      simpa [Json.isTruthy, Json.typeofIsObject, Json.entriesJS] using hok
    rw [← hemit]
    exact openApiPathsEmit_length url kvs

/-- C7, witness: the error branch at a document with no paths key, and the
counting equation at the example document. -/
theorem c7_amended_document_mode_witness :
    (∃ msg, discoverEndpointsFromOpenApi "u" Json.null = Except.error msg)
      ∧ ([⟨"GET", "/a", "u", none, some false, none⟩,
          ⟨"POST", "/b", "u", none, some true, none⟩] : List Endpoint).length
          = (c7ExamplePaths.map fun pi =>
              if pi.2.isTruthy && pi.2.typeofIsObject && strStartsWith pi.1 "/" then
                (verbOpsOf pi.2).length
              else 0).sum :=
  ⟨c7_amended_document_mode.1 "u" Json.null rfl,
   c7_amended_document_mode.2.1 "u" c7ExampleDoc c7ExamplePaths _ rfl
     c7_amended_document_mode.2.2⟩

/-- C8, counterexample. A candidate containing `test(` and
`@playwright/test` but not `request` passes the synthesis-stage gate
(and so replaces the template in `mergeTestCode`) yet fails the
remediation gate `isValidTestCode`: the two gates are not the same
predicate. -/
theorem c8_gate_counterexample :
    mergeGate c8CexCode = true ∧ isValidTestCode c8CexCode = false
      ∧ mergeTestCode "template body" c8CexCode = c8CexCode :=
  ⟨by decide, by decide, rfl⟩

/-- C8, amended. The synthesis-stage gate accepts exactly the strings
containing `test(` and `@playwright/test`; the remediation gate
additionally requires the substring `request` and also accepts
`test.describe` in place of `test(`: for every candidate,
`isValidTestCode` equals the synthesis gate extended by those two
differences. -/
theorem c8_amended_gate_relation :
    ∀ code : String,
      isValidTestCode code =
        ((mergeGate code || (hasSubstr code "@playwright/test" && hasSubstr code "test.describe"))
          && hasSubstr code "request") := by
  intro code
  simp only [isValidTestCode, mergeGate]
  cases hasSubstr code "test(" <;> cases hasSubstr code "@playwright/test" <;>
    cases hasSubstr code "test.describe" <;> cases hasSubstr code "request" <;> rfl

/-- C9. For a batch whose 20 latency samples are all 100 (total wall-clock
2000, as produced by `testEndpointPerformance`), the computed metric has
p95 = p99 = average = minimum = maximum = 100 — percentiles read off the
sorted array at floor(0.95 n) and floor(0.99 n) — and the route is
classified `fast` (average below 200 ms). -/
theorem c9_uniform_latency_metrics :
    testEndpointPerformance epSearch 2000
        = perfMetricCore epSearch 2000 (List.replicate 20 (100 : ℚ))
      ∧ (perfMetricCore epSearch 2000 (List.replicate 20 (100 : ℚ))).p95Latency = 100
      ∧ (perfMetricCore epSearch 2000 (List.replicate 20 (100 : ℚ))).p99Latency = 100
      ∧ (perfMetricCore epSearch 2000 (List.replicate 20 (100 : ℚ))).averageLatency = 100
      ∧ (perfMetricCore epSearch 2000 (List.replicate 20 (100 : ℚ))).minLatency = 100
      ∧ (perfMetricCore epSearch 2000 (List.replicate 20 (100 : ℚ))).maxLatency = 100
      ∧ (perfMetricCore epSearch 2000 (List.replicate 20 (100 : ℚ))).status
          = PerfStatus.fast := by
  have hsorted : sortAsc (List.replicate 20 (100 : ℚ)) = List.replicate 20 (100 : ℚ) :=
    sortAsc_replicate 100 20
  have havg : (List.replicate 20 (100 : ℚ)).foldl (· + ·) 0
      / ((List.replicate 20 (100 : ℚ)).length : ℚ) = 100 := by
    rw [foldl_add_replicate, List.length_replicate]
    norm_num
  have hp95 : (perfMetricCore epSearch 2000 (List.replicate 20 (100 : ℚ))).p95Latency = 100 := by
    simp only [perfMetricCore, hsorted, List.length_replicate]
    rw [show ((20 : ℕ) : ℚ) * (95 / 100) = ((19 : ℕ) : ℚ) by norm_num, Int.floor_natCast,
      Int.toNat_natCast, get?_replicate_lt (100 : ℚ) (by norm_num : (19 : ℕ) < 20)]
    rfl
  have hp99 : (perfMetricCore epSearch 2000 (List.replicate 20 (100 : ℚ))).p99Latency = 100 := by
    simp only [perfMetricCore, hsorted, List.length_replicate]
    rw [show ⌊((20 : ℕ) : ℚ) * (99 / 100)⌋ = ((19 : ℕ) : ℤ) from
        Int.floor_eq_iff.mpr (by constructor <;> norm_num),
      Int.toNat_natCast, get?_replicate_lt (100 : ℚ) (by norm_num : (19 : ℕ) < 20)]
    rfl
  refine ⟨?_, hp95, hp99, ?_, ?_, ?_, ?_⟩
  · show perfMetricCore epSearch 2000 (List.replicate 20 ((2000 : ℚ) / 20)) = _
    rw [show (2000 : ℚ) / 20 = 100 by norm_num]
  · simp only [perfMetricCore, hsorted]
    exact havg
  · simp only [perfMetricCore, hsorted]; rfl
  · simp only [perfMetricCore, hsorted]; rfl
  · simp only [perfMetricCore, hsorted]
    rw [if_pos]
    rw [havg]
    norm_num

/-- C10. Invariant of `SecurityTester.testEndpoints`: a key belongs to
`vulnerableEndpoints` exactly when some tested endpoint with that
`method path` key has at least one vulnerable SQL-injection, XSS or
path-traversal finding; vulnerable `large_payload`, `negative_value`
and `unauthorized` findings never contribute. -/
theorem c10_vulnerable_endpoints_invariant :
    ∀ (endpoints : List Endpoint) (env : SecEnv) (key : String),
      key ∈ (securityTestEndpoints endpoints env).vulnerableEndpoints ↔
        ∃ e ∈ endpoints, key = e.method ++ " " ++ e.path ∧
          ∃ i ∈ testSQLInjection e env ++ testXSS e env ++ testPathTraversal e env,
            i.response.vulnerable = true := by
  intro endpoints env key
  have h := secLoop_vuln_mem env key endpoints []
  simpa [securityTestEndpoints, vulnKey] using h
